import Mathlib

/-!
Shallow embedding of `madadon_bot.py` (ETF market tracker bot): the persisted
state (`StateManager`), the change detector (`detect_significant_changes` +
`StateManager.update_price`), the per-period low analysis inside
`fetch_low_analysis`, the day-over-day change field, the subscriber registry
(`add_user` / `remove_user`) and the daily-report branch of
`automated_monitoring`.

Prices are modelled as rationals, calendar dates as strings in the
`YYYY-MM-DD` format the code produces with `strftime`, and bar timestamps as
integer day numbers (only comparisons and differences of timestamps occur in
the analysed code).  Python dicts keyed by strings become association lists
with replace-on-assign update (`setKey`), matching dict assignment semantics
(insertion order kept, at most one binding per key when the list's keys are
distinct).  Python's `round(x, d)` becomes `roundTo d` built on Mathlib's
`round`; the two differ only on exact decimal ties (Python rounds half to
even), and no theorem below evaluates a tie.
-/

namespace Madadon

/-- Dict lookup: first binding of the key, if any (Python `d[k]` / `d.get(k)`). -/
def getKey {α : Type} (k : String) : List (String × α) → Option α
  | [] => none
  | (k', v) :: rest => if k = k' then some v else getKey k rest

/-- Dict assignment `d[k] = v`: replace the existing binding, else append. -/
def setKey {α : Type} (k : String) (v : α) : List (String × α) → List (String × α)
  | [] => [(k, v)]
  | (k', v') :: rest => if k' = k then (k, v) :: rest else (k', v') :: setKey k v rest

theorem getKey_setKey_self {α : Type} (k : String) (v : α) (l : List (String × α)) :
    getKey k (setKey k v l) = some v := by
  induction l with
  | nil => simp [setKey, getKey]
  | cons hd tl ih =>
    obtain ⟨k', v'⟩ := hd
    by_cases h : k' = k
    · simp [setKey, h, getKey]
    · simp [setKey, h, getKey, Ne.symm h, ih]

theorem mem_keys_setKey {α : Type} (a k : String) (v : α) (l : List (String × α)) :
    a ∈ (setKey k v l).map Prod.fst ↔ a = k ∨ a ∈ l.map Prod.fst := by
  induction l with
  | nil => simp [setKey]
  | cons hd tl ih =>
    obtain ⟨k', v'⟩ := hd
    by_cases h : k' = k
    · subst h; simp [setKey]
    · simp only [setKey, if_neg h, List.map_cons, List.mem_cons, ih]
      tauto

theorem nodup_keys_setKey {α : Type} (k : String) (v : α) (l : List (String × α))
    (h : (l.map Prod.fst).Nodup) : ((setKey k v l).map Prod.fst).Nodup := by
  induction l with
  | nil => simp [setKey]
  | cons hd tl ih =>
    obtain ⟨k', v'⟩ := hd
    simp only [List.map_cons, List.nodup_cons] at h
    by_cases hk : k' = k
    · subst hk
      simpa [setKey, List.nodup_cons] using h
    · simp only [setKey, if_neg hk, List.map_cons, List.nodup_cons]
      refine ⟨?_, ih h.2⟩
      rw [mem_keys_setKey]
      rintro (rfl | hmem)
      · exact hk rfl
      · exact h.1 hmem

/-- One subscriber record, as written by `StateManager.add_user`. -/
structure UserInfo where
  username : String
  added_date : String
  active : Bool
deriving DecidableEq, Repr

/-- The persisted bot state (`StateManager.state`).  The JSON document's
`last_prices`, `price_history`, `last_notification` and `users` entries;
absent maps are the empty list. -/
structure BotState where
  last_prices : List (String × ℚ)
  price_history : List (String × List (String × ℚ))
  last_notification : String
  users : List (String × UserInfo)
deriving DecidableEq

/-- The fallback document of `StateManager.load_state`:
`{"last_prices": {}, "last_notification": "", "alerts": {}}`. -/
def default_state : BotState :=
  { last_prices := [], price_history := [], last_notification := "", users := [] }

/-- `StateManager.load_state`.  The on-disk file is `none` when
`state_file.exists()` is false, `some none` when the file exists but
`json.load` raises (corrupt content, caught and logged), and
`some (some s)` when it parses to the document `s`.  Both failure shapes
fall through to the default document. -/
def load_state (file : Option (Option BotState)) : BotState :=
  match file with
  | some (some s) => s
  | _ => default_state

/-- `StateManager.update_price symbol price`, with `today` the
`%Y-%m-%d` rendering of `datetime.now()`:  sets
`price_history[symbol][today] = price` and `last_prices[symbol] = price`. -/
def update_price (s : BotState) (symbol today : String) (price : ℚ) : BotState :=
  let hist := (getKey symbol s.price_history).getD []
  { s with
    price_history := setKey symbol (setKey today price hist) s.price_history
    last_prices := setKey symbol price s.last_prices }

/-- `StateManager.should_send_notification`: `last_notif != today`. -/
def should_send_notification (s : BotState) (today : String) : Bool :=
  decide (s.last_notification ≠ today)

/-- `StateManager.mark_notification_sent`: stores today's date string. -/
def mark_notification_sent (s : BotState) (today : String) : BotState :=
  { s with last_notification := today }

/-- `StateManager.add_user chat_id username`, with `now` the ISO rendering of
`datetime.now()`:  overwrites `users[chat_id]` with a fresh record
(`added_date = now`, `active = True`). -/
def add_user (s : BotState) (chat_id username now : String) : BotState :=
  { s with users := setKey chat_id ⟨username, now, true⟩ s.users }

/-- `StateManager.remove_user chat_id`: if present, set `active = False`. -/
def remove_user (s : BotState) (chat_id : String) : BotState :=
  match getKey chat_id s.users with
  | some info => { s with users := setKey chat_id { info with active := false } s.users }
  | none => s

/-- `CHANGE_THRESHOLD = 0.02`. -/
def CHANGE_THRESHOLD : ℚ := 2 / 100

/-- The tracked lookback periods, `PERIODS = [30, 60, 180, 360]`. -/
def PERIODS : List ℕ := [30, 60, 180, 360]

/-- The per-symbol comparison of `detect_significant_changes` (its loop body
before the state update): with `last_known_price = get_last_price symbol`,
emit `(name, symbol, last_known_price, current_price)` iff a prior price
exists and `abs((current - last) / last) >= CHANGE_THRESHOLD`. -/
def detect_change (s : BotState) (name symbol : String) (current_price : ℚ) :
    Option (String × String × ℚ × ℚ) :=
  match getKey symbol s.last_prices with
  | some last_known_price =>
      if |(current_price - last_known_price) / last_known_price| ≥ CHANGE_THRESHOLD
      then some (name, symbol, last_known_price, current_price)
      else none
  | none => none

/-- One full iteration of the `detect_significant_changes` loop for a symbol
whose fetch succeeded with closing price `current_price`: the change record
(if any) and the state after the unconditional `update_price` call. -/
def observe (s : BotState) (name symbol today : String) (current_price : ℚ) :
    Option (String × String × ℚ × ℚ) × BotState :=
  (detect_change s name symbol current_price, update_price s symbol today current_price)

/-- One tick of the `automated_monitoring` loop, restricted to its effect on
the daily report: at `hour == 9 and minute == 0`, send the report iff
`should_send_notification` and then `mark_notification_sent`; every other
branch (the 30-minute change alerts, modelled by `observe`) leaves
`last_notification` untouched.  Returns (report sent?, new state). -/
def monitoring_tick (hour minute : ℕ) (today : String) (s : BotState) :
    Bool × BotState :=
  if hour = 9 ∧ minute = 0 then
    if should_send_notification s today then
      (true, mark_notification_sent s today)
    else (false, s)
  else (false, s)

/-- One OHLCV bar of the fetched history.  `date` is the timestamp as a day
number (the code only compares timestamps and subtracts dates), `dateStr`
its `%Y-%m-%d` rendering. -/
structure Bar where
  date : ℤ
  dateStr : String
  close : ℚ
  low : ℚ
deriving DecidableEq, Repr

/-- `full_hist.loc[full_hist.index >= start_date]` with
`start_date = now - pd.Timedelta(days=days)`. -/
def filteredBars (bars : List Bar) (now : ℤ) (days : ℕ) : List Bar :=
  bars.filter (fun b => now - (days : ℤ) ≤ b.date)

/-- `min_required_days = max(10, int(0.5 * days))`; Python `int` truncates,
which on the nonnegative value `0.5 * days` is the floor. -/
def min_required_days (days : ℕ) : ℕ :=
  max 10 (Int.toNat ⌊(1 / 2 : ℚ) * (days : ℚ)⌋)

/-- `filtered['Low'].min()`. -/
def lowMin : List Bar → Option ℚ
  | [] => none
  | b :: rest =>
    match lowMin rest with
    | none => some b.low
    | some m => some (min b.low m)

/-- `filtered['Low'].idxmin()` together with the row it indexes: the first
bar attaining the minimal `low` (pandas breaks ties by earliest index). -/
def lowIdxmin : List Bar → Option Bar
  | [] => none
  | b :: rest =>
    match lowIdxmin rest with
    | none => some b
    | some m => if b.low ≤ m.low then some b else some m

/-- Python `round(x, d)` (up to the tie-breaking mode; see the header). -/
def roundTo (d : ℕ) (x : ℚ) : ℚ :=
  ((round (x * (10 : ℚ) ^ d) : ℤ) : ℚ) / (10 : ℚ) ^ d

/-- The four per-period fields `low_{days}`, `is_low_{days}`,
`low_date_{days}`, `days_since_low_{days}` of the `fetch_low_analysis`
result; `none` renders the code's `None`. -/
structure PeriodResult where
  low : Option ℚ
  is_low : Option Bool
  low_date : Option String
  days_since_low : Option ℤ
deriving DecidableEq, Repr

/-- The body of the `for days in PERIODS` loop of `fetch_low_analysis`:
filter the history to the window, bail out to four `None`s when fewer than
`min_required_days` rows remain, otherwise take the window minimum of `Low`
(`is_at_low = current_price <= low_price * 1.015`, the stored low rounded to
2 decimals, `days_since_low` the date difference to the argmin row).  The
catch-all arm renders the `except` handler, which also writes four `None`s;
it is unreachable when the length guard passed. -/
def analyzePeriod (bars : List Bar) (now : ℤ) (current_price : ℚ) (days : ℕ) :
    PeriodResult :=
  if (filteredBars bars now days).length < min_required_days days then
    ⟨none, none, none, none⟩
  else
    match lowMin (filteredBars bars now days), lowIdxmin (filteredBars bars now days) with
    | some low_price, some low_bar =>
        ⟨some (roundTo 2 low_price),
         some (decide (current_price ≤ low_price * (203 / 200))),
         some low_bar.dateStr,
         some (now - low_bar.date)⟩
    | _, _ => ⟨none, none, none, none⟩

/-- The `change_1d` field of the `fetch_low_analysis` result: initialised to
0 and, when the history has at least two rows, overwritten with
`round(((close[-1] - close[-2]) / close[-2]) * 100, 2)`. -/
def change_1d (closes : List ℚ) : ℚ :=
  match closes.reverse with
  | current :: prev :: _ => roundTo 2 (((current - prev) / prev) * 100)
  | _ => 0

theorem getKey_setKey_of_ne {α : Type} (a k : String) (v : α) (l : List (String × α))
    (h : a ≠ k) : getKey a (setKey k v l) = getKey a l := by
  induction l with
  | nil => simp [setKey, getKey, h]
  | cons hd tl ih =>
    obtain ⟨k', v'⟩ := hd
    by_cases hk : k' = k
    · subst hk
      simp [setKey, getKey, h, ih]
    · simp only [setKey, if_neg hk, getKey]
      by_cases ha : a = k'
      · simp [ha]
      · simp [ha, ih]

/-- Claim C1: on a scheduler tick at hour 9, minute 0, the daily report is
sent iff the persisted `last_notification` differs (by exact string
equality) from today's `%Y-%m-%d` date; when they are equal the state is
untouched, when they differ the report goes out and the persisted date
becomes today.  In either case `last_notification` equals today afterwards. -/
theorem daily_report_dedup (s : BotState) (today : String) :
    (monitoring_tick 9 0 today s).1 = decide (s.last_notification ≠ today) ∧
    (monitoring_tick 9 0 today s).2.last_notification = today ∧
    (monitoring_tick 9 0 today s).2 =
      if s.last_notification = today then s else mark_notification_sent s today := by
  by_cases h : s.last_notification = today
  · simp [monitoring_tick, should_send_notification, h]
  · simp [monitoring_tick, should_send_notification, h, mark_notification_sent]

/-- Claim C9: `load_state` falls back to the empty-defaults document both
when the state file is missing and when its content does not parse, and the
defaults carry an empty `last_prices` map and an empty last-notification
date. -/
theorem load_state_defaults :
    load_state none = default_state ∧
    load_state (some none) = default_state ∧
    default_state.last_prices = [] ∧
    default_state.last_notification = "" :=
  ⟨rfl, rfl, rfl, rfl⟩

/-- Claim C7: a successful observation of `symbol` at price `p` performs
exactly the `update_price` write, which sets `last_prices[symbol] = p` and
`price_history[symbol][today] = p` together, for every input state —
independent of whether the observation emitted a change record. -/
theorem observe_updates_jointly (s : BotState) (name symbol today : String) (p : ℚ) :
    (observe s name symbol today p).2 = update_price s symbol today p ∧
    getKey symbol (observe s name symbol today p).2.last_prices = some p ∧
    getKey today ((getKey symbol
        (observe s name symbol today p).2.price_history).getD []) = some p := by
  refine ⟨rfl, ?_, ?_⟩
  · simp [observe, update_price, getKey_setKey_self]
  · simp [observe, update_price, getKey_setKey_self]

/-- Claim C8 counterexample: subscribing on 2024-01-01, unsubscribing, and
re-subscribing on 2024-06-01 does NOT preserve the original added date —
`add_user` overwrites the whole user record, so the stored `added_date`
is the re-subscription date. -/
theorem resubscribe_resets_added_date :
    (getKey "u1" (add_user (remove_user
        (add_user default_state "u1" "alice" "2024-01-01") "u1")
        "u1" "alice" "2024-06-01").users).map UserInfo.added_date ≠
      some "2024-01-01" := by
  decide

/-- Claim C8 (amended): after subscribe at `t1`, unsubscribe, subscribe at
`t2`, the final record has `active = true` but its `added_date` is `t2`,
the date of the most recent subscription — re-subscription resets the
added date rather than preserving it. -/
theorem resubscribe_final_state (s : BotState) (chat_id username t1 t2 : String) :
    getKey chat_id (add_user (remove_user (add_user s chat_id username t1) chat_id)
        chat_id username t2).users = some ⟨username, t2, true⟩ := by
  simp [add_user, getKey_setKey_self]

/-- Claim C2: a change record is emitted iff a previous price is recorded
for the symbol and the absolute relative change reaches the 2% threshold
(inclusive); after any observation the observed price is the new baseline.
The two concluding conjuncts are the spec's worked examples: previous 100,
current 102 emits; previous 100, current 101.5 does not. -/
theorem change_emitted_iff (s : BotState) (name symbol today : String) (p : ℚ) :
    ((observe s name symbol today p).1.isSome ↔
      ∃ prev, getKey symbol s.last_prices = some prev ∧
        CHANGE_THRESHOLD ≤ |(p - prev) / prev|) ∧
    getKey symbol (observe s name symbol today p).2.last_prices = some p ∧
    detect_change { default_state with last_prices := [("SPY", 100)] } "n" "SPY" 102 =
      some ("n", "SPY", 100, 102) ∧
    detect_change { default_state with last_prices := [("SPY", 100)] } "n" "SPY" (203 / 2) =
      none := by
  refine ⟨?_, ?_, by norm_num [detect_change, getKey, CHANGE_THRESHOLD, abs],
    by norm_num [detect_change, getKey, CHANGE_THRESHOLD, abs]⟩
  · cases hg : getKey symbol s.last_prices with
    | none => simp [observe, detect_change, hg]
    | some prev =>
      by_cases hth : CHANGE_THRESHOLD ≤ |(p - prev) / prev|
      · simp [observe, detect_change, hg, ge_iff_le, hth]
      · simp [observe, detect_change, hg, ge_iff_le, hth]
  · simp [observe, update_price, getKey_setKey_self]

/-- Claim C6: for every bar series, clock and period, the four per-period
fields of the low-analysis record are jointly present or jointly absent —
no partially populated period ever arises. -/
theorem period_fields_all_or_none (bars : List Bar) (now : ℤ) (cp : ℚ) (days : ℕ) :
    ((analyzePeriod bars now cp days).low.isSome ∧
     (analyzePeriod bars now cp days).is_low.isSome ∧
     (analyzePeriod bars now cp days).low_date.isSome ∧
     (analyzePeriod bars now cp days).days_since_low.isSome) ∨
    ((analyzePeriod bars now cp days).low = none ∧
     (analyzePeriod bars now cp days).is_low = none ∧
     (analyzePeriod bars now cp days).low_date = none ∧
     (analyzePeriod bars now cp days).days_since_low = none) := by
  unfold analyzePeriod
  split
  · right; exact ⟨rfl, rfl, rfl, rfl⟩
  · split
    · left; exact ⟨rfl, rfl, rfl, rfl⟩
    · right; exact ⟨rfl, rfl, rfl, rfl⟩

/-- Claim C3: whenever a period's fields are present, its `is_low` flag is
true iff `current_price ≤ low_price * 1.015` where `low_price` is the
window minimum of the `Low` column; the comparison is `≤`, so the boundary
`current_price = low_price * 1.015` counts as at-low. -/
theorem is_at_low_iff (bars : List Bar) (now : ℤ) (cp : ℚ) (days : ℕ) (b : Bool)
    (h : (analyzePeriod bars now cp days).is_low = some b) :
    ∃ lp, lowMin (filteredBars bars now days) = some lp ∧
      (b = true ↔ cp ≤ lp * (203 / 200)) := by
  unfold analyzePeriod at h
  split at h
  · exact absurd h (by simp)
  · split at h
    · rename_i lp lb hlm hli
      simp only [Option.some.injEq] at h
      exact ⟨lp, hlm, by rw [← h]; simp⟩
    · exact absurd h (by simp)

/-- Ten identical bars on consecutive days, enough history for a 0-day
window; used only to instantiate `is_at_low_iff` at the tolerance boundary. -/
def wBars : List Bar := (List.range 10).map (fun i => ⟨(i : ℤ), "2024-01-01", 100, 100⟩)

theorem is_at_low_iff_witness :
    (analyzePeriod wBars 0 (203 / 2) 0).is_low = some true ∧
    ∃ lp, lowMin (filteredBars wBars 0 0) = some lp ∧
      (true = true ↔ (203 / 2 : ℚ) ≤ lp * (203 / 200)) :=
  ⟨by norm_num [analyzePeriod, wBars, filteredBars, min_required_days, List.range,
      List.range.loop, lowMin, lowIdxmin],
   is_at_low_iff wBars 0 (203 / 2) 0 true
    (by norm_num [analyzePeriod, wBars, filteredBars, min_required_days, List.range,
      List.range.loop, lowMin, lowIdxmin])⟩

theorem min_required_days_eq (days : ℕ) : min_required_days days = max 10 (days / 2) := by
  unfold min_required_days
  have h : (1 / 2 : ℚ) * (days : ℚ) = ((days : ℕ) : ℚ) / ((2 : ℕ) : ℚ) := by
    push_cast; ring
  rw [h, Rat.floor_natCast_div_natCast]
  omega

theorem min_required_round_eq (k : ℕ) :
    min_required_days (2 * k) =
      max 10 (Int.toNat (round ((1 / 2 : ℚ) * ((2 * k : ℕ) : ℚ)))) := by
  have h2 : (1 / 2 : ℚ) * ((2 * k : ℕ) : ℚ) = (k : ℚ) := by push_cast; ring
  rw [min_required_days_eq, h2, round_natCast]
  simp [Nat.mul_div_cancel_left]

/-- Claim C5: the minimum filtered-bar count gating each period equals
`max(10, round(0.5 * P))` for every tracked period `P` (all tracked periods
are even, so the code's truncating `int` agrees with rounding), and a
period whose filtered count falls below it is marked wholly absent. -/
theorem min_required_matches (bars : List Bar) (now : ℤ) (cp : ℚ) :
    (∀ P ∈ PERIODS,
      min_required_days P = max 10 (Int.toNat (round ((1 / 2 : ℚ) * (P : ℚ))))) ∧
    (∀ P : ℕ, (filteredBars bars now P).length < min_required_days P →
      analyzePeriod bars now cp P = ⟨none, none, none, none⟩) := by
  constructor
  · intro P hP
    fin_cases hP
    · exact min_required_round_eq 15
    · exact min_required_round_eq 30
    · exact min_required_round_eq 90
    · exact min_required_round_eq 180
  · intro P h
    unfold analyzePeriod
    rw [if_pos h]

theorem min_required_matches_witness :
    (30 ∈ PERIODS ∧
      min_required_days 30 = max 10 (Int.toNat (round ((1 / 2 : ℚ) * ((30 : ℕ) : ℚ))))) ∧
    ((filteredBars [] 0 30).length < min_required_days 30 ∧
      analyzePeriod [] 0 100 30 = ⟨none, none, none, none⟩) :=
  ⟨⟨by decide, (min_required_matches [] 0 100).1 30 (by decide)⟩,
   ⟨by simp [filteredBars, min_required_days_eq],
    (min_required_matches [] 0 100).2 30 (by simp [filteredBars, min_required_days_eq])⟩⟩

/-- Claim C4 counterexample: with closes `[100, 101.234]` the stored
`change_1d` is `1.23` — the percentage rounded to 2 decimal places — not
the claim's 1-decimal rounding `1.2`. -/
theorem change_1d_not_one_decimal :
    change_1d [100, 101234 / 1000] ≠
      roundTo 1 ((((101234 / 1000 : ℚ) - 100) / 100) * 100) := by
  norm_num [change_1d, roundTo, round_eq]

/-- Claim C4 (amended): with at least two bars the stored `change_1d`
equals `((close[-1] - close[-2]) / close[-2]) * 100` rounded to 2 decimal
places (presentation later formats it to 1 decimal), and it is 0 with one
bar or none. -/
theorem change_1d_two_decimals (l : List ℚ) (prev current c : ℚ) :
    change_1d (l ++ [prev, current]) = roundTo 2 (((current - prev) / prev) * 100) ∧
    change_1d [c] = 0 ∧ change_1d [] = 0 := by
  refine ⟨?_, rfl, rfl⟩
  simp [change_1d, List.reverse_append]

/-- Claim C10: starting from a state whose per-symbol histories have no
duplicate date keys, recording two prices for the same symbol on the same
day keeps every history free of duplicate dates and leaves the later price
as the stored value for that date. -/
theorem price_history_one_entry_per_day (s : BotState) (symbol today : String)
    (p1 p2 : ℚ)
    (h : ∀ sym hist, getKey sym s.price_history = some hist → (hist.map Prod.fst).Nodup) :
    (∀ sym hist,
      getKey sym (update_price (update_price s symbol today p1) symbol today p2).price_history
        = some hist → (hist.map Prod.fst).Nodup) ∧
    getKey today ((getKey symbol
        (update_price (update_price s symbol today p1) symbol today p2).price_history).getD [])
      = some p2 := by
  have h0 : (((getKey symbol s.price_history).getD []).map Prod.fst).Nodup := by
    cases hg : getKey symbol s.price_history with
    | none => simp
    | some hist0 => simpa using h symbol hist0 hg
  have hkey : getKey symbol
      (update_price (update_price s symbol today p1) symbol today p2).price_history =
      some (setKey today p2 (setKey today p1 ((getKey symbol s.price_history).getD []))) := by
    simp [update_price, getKey_setKey_self]
  constructor
  · intro sym hist hh
    by_cases hs : sym = symbol
    · subst hs
      rw [hkey, Option.some.injEq] at hh
      subst hh
      exact nodup_keys_setKey _ _ _ (nodup_keys_setKey _ _ _ h0)
    · rw [show (update_price (update_price s symbol today p1) symbol today p2).price_history =
          setKey symbol (setKey today p2 (setKey today p1
            ((getKey symbol s.price_history).getD []))) (update_price s symbol today p1).price_history
          by simp [update_price, getKey_setKey_self],
        getKey_setKey_of_ne _ _ _ _ hs] at hh
      rw [show (update_price s symbol today p1).price_history =
          setKey symbol (setKey today p1 ((getKey symbol s.price_history).getD []))
            s.price_history by simp [update_price],
        getKey_setKey_of_ne _ _ _ _ hs] at hh
      exact h sym hist hh
  · rw [hkey]
    simp [getKey_setKey_self]

theorem price_history_one_entry_per_day_witness :
    (∀ sym hist, getKey sym default_state.price_history = some hist →
      (hist.map Prod.fst).Nodup) ∧
    ((∀ sym hist,
        getKey sym (update_price (update_price default_state "SPY" "2024-01-02" 1)
          "SPY" "2024-01-02" 2).price_history = some hist → (hist.map Prod.fst).Nodup) ∧
      getKey "2024-01-02" ((getKey "SPY"
        (update_price (update_price default_state "SPY" "2024-01-02" 1)
          "SPY" "2024-01-02" 2).price_history).getD []) = some 2) := by
  have hyp : ∀ sym hist, getKey sym default_state.price_history = some hist →
      (hist.map Prod.fst).Nodup := by
    intro sym hist hh
    simp [default_state, getKey] at hh
  exact ⟨hyp, price_history_one_entry_per_day default_state "SPY" "2024-01-02" 1 2 hyp⟩

end Madadon
